import Mathlib

/-!
Verification of the xai-voice-agent call-session bridge.

This file gives a shallow embedding of the orchestration code in
`examples/agent/telephony/xai/src/index.ts` (the Call Session Bridge),
`src/tools.ts` (the Tool Dispatcher) and `src/user-auth.ts` (the per-call
authorization context), and proves properties about it.

Modelling conventions:
- JavaScript values crossing the wire are modelled by a small `Json` type
  together with an executable parser (`jsonParse`), standing in for
  `JSON.parse`, and payloads the code produces with `JSON.stringify` are
  written out as the literal strings that call would produce.
- The per-call closure state of the `/media-stream/:callId` handler is the
  record `BridgeState`; each socket event is a constructor of `Event` and
  the handler bodies become the pure transition function `step`, which also
  returns the list of externally visible actions (`Output`) the handler
  performs, in program order.  `run` folds `step` over an event trace,
  matching the single-threaded, in-arrival-order processing of the two
  sockets' events.
- The asynchronous result of `executeToolCall` consumed by the
  `response.done` handler is supplied as data on the event
  (`XaiMessage.responseDone`): `Except.ok` is the resolved promise taken by
  the `.then` branch, `Except.error` the rejection taken by `.catch`.
- The process-wide maps (`callPhoneNumbers`, `callConversationIds`,
  `botTranscriptBuffers`, `activeCallContexts`) are modelled as functions
  `String → Option _` in `GlobalMaps`; the socket close/error handlers
  become the functions `onTwilioClose`, `onXaiClose`, `onXaiError`,
  `onTwilioError`.
-/

/-! ## JSON values, `JSON.parse` and field lookup -/

inductive Json where
  | null : Json
  | bool (b : Bool) : Json
  | num (n : Int) : Json
  | str (s : String) : Json
  | arr (elems : List Json) : Json
  | obj (fields : List (String × Json)) : Json

/-- The opening-brace character, written by code point to keep string
literals free of raw braces. -/
def lbrace : Char := Char.ofNat 123

/-- The closing-brace character. -/
def rbrace : Char := Char.ofNat 125

def skipWs : List Char → List Char
  | [] => []
  | c :: cs => if c = ' ' ∨ c = '\t' ∨ c = '\n' ∨ c = '\r' then skipWs cs else c :: cs

/-- Parse the body of a JSON string after the opening quote, returning the
decoded string and the remaining input. -/
def parseStringBody (acc : List Char) : List Char → Option (String × List Char)
  | [] => none
  | c :: cs =>
    if c = '"' then some (String.mk acc.reverse, cs)
    else if c = '\\' then
      match cs with
      | [] => none
      | e :: cs2 =>
        if e = '"' then parseStringBody ('"' :: acc) cs2
        else if e = '\\' then parseStringBody ('\\' :: acc) cs2
        else if e = '/' then parseStringBody ('/' :: acc) cs2
        else if e = 'n' then parseStringBody ('\n' :: acc) cs2
        else if e = 't' then parseStringBody ('\t' :: acc) cs2
        else if e = 'r' then parseStringBody ('\r' :: acc) cs2
        else none
    else parseStringBody (c :: acc) cs

/-- Parse a run of decimal digits (at least the first is known to be a digit
at the call site). -/
def parseDigits (acc : Nat) : List Char → Nat × List Char
  | [] => (acc, [])
  | c :: cs =>
    if c.isDigit then parseDigits (acc * 10 + (c.toNat - 48)) cs else (acc, c :: cs)

mutual

def parseValue : Nat → List Char → Option (Json × List Char)
  | 0, _ => none
  | fuel + 1, cs =>
    match skipWs cs with
    | [] => none
    | c :: rest =>
      if c = '"' then
        match parseStringBody [] rest with
        | some (s, r) => some (Json.str s, r)
        | none => none
      else if c = 't' then
        match rest with
        | 'r' :: 'u' :: 'e' :: r => some (Json.bool true, r)
        | _ => none
      else if c = 'f' then
        match rest with
        | 'a' :: 'l' :: 's' :: 'e' :: r => some (Json.bool false, r)
        | _ => none
      else if c = 'n' then
        match rest with
        | 'u' :: 'l' :: 'l' :: r => some (Json.null, r)
        | _ => none
      else if c = lbrace then parseObjectBody fuel rest
      else if c = '[' then parseArrayBody fuel rest
      else if c = '-' then
        match rest with
        | d :: r =>
          if d.isDigit then
            let (n, r2) := parseDigits (d.toNat - 48) r
            some (Json.num (-(Int.ofNat n)), r2)
          else none
        | [] => none
      else if c.isDigit then
        let (n, r2) := parseDigits (c.toNat - 48) rest
        some (Json.num (Int.ofNat n), r2)
      else none

def parseObjectBody : Nat → List Char → Option (Json × List Char)
  | 0, _ => none
  | fuel + 1, cs =>
    match skipWs cs with
    | [] => none
    | c :: rest =>
      if c = rbrace then some (Json.obj [], rest)
      else parseMembers fuel [] (c :: rest)

def parseMembers : Nat → List (String × Json) → List Char → Option (Json × List Char)
  | 0, _, _ => none
  | fuel + 1, acc, cs =>
    match skipWs cs with
    | '"' :: r =>
      match parseStringBody [] r with
      | some (key, r2) =>
        (match skipWs r2 with
         | ':' :: r3 =>
           match parseValue fuel r3 with
           | some (v, r4) =>
             (match skipWs r4 with
              | ',' :: r5 => parseMembers fuel (acc ++ [(key, v)]) r5
              | c :: r5 => if c = rbrace then some (Json.obj (acc ++ [(key, v)]), r5) else none
              | [] => none)
           | none => none
         | _ => none)
      | none => none
    | _ => none

def parseArrayBody : Nat → List Char → Option (Json × List Char)
  | 0, _ => none
  | fuel + 1, cs =>
    match skipWs cs with
    | [] => none
    | ']' :: rest => some (Json.arr [], rest)
    | cs2 => parseElems fuel [] cs2

def parseElems : Nat → List Json → List Char → Option (Json × List Char)
  | 0, _, _ => none
  | fuel + 1, acc, cs =>
    match parseValue fuel cs with
    | some (v, r) =>
      (match skipWs r with
       | ',' :: r2 => parseElems fuel (acc ++ [v]) r2
       | ']' :: r2 => some (Json.arr (acc ++ [v]), r2)
       | _ => none)
    | none => none

end

/-- Model of `JSON.parse`: succeeds only when the whole input is a single
JSON value (up to surrounding whitespace). -/
def jsonParse (s : String) : Option Json :=
  match parseValue (3 * s.length + 16) s.data with
  | some (j, rest) => if skipWs rest = [] then some j else none
  | none => none

/-- Field lookup on a JSON object (`none` on non-objects and missing keys). -/
def jlookup (j : Json) (key : String) : Option Json :=
  match j with
  | Json.obj fields => fields.lookup key
  | _ => none

/-! ## user-auth.ts: authorization context -/

/-- The `UserAuth` record returned by the identity-resolution backend
(`user-auth.ts`).  The seeded `following` / `liked_tweets` lists only feed
the greeting prompt text, which this model elides. -/
structure UserAuth where
  authenticated : Bool
  access_token : Option String
  x_user_id : Option String
  x_username : Option String
  x_name : Option String
deriving Repr, DecidableEq

/-- The per-call `UserContext` stored in `activeCallContexts`. -/
structure UserContext where
  phoneNumber : String
  auth : UserAuth
deriving Repr, DecidableEq

/-- JavaScript truthiness of an optional string: `undefined`/`null` and the
empty string are falsy. -/
def isTruthy : Option String → Bool
  | none => false
  | some s => s != ""

/-! ## tools.ts: the Tool Dispatcher -/

/-- The provider operations of `x-api.ts`, which the dispatcher may invoke.
Each carries the arguments the call site passes. -/
inductive ProviderCall where
  | searchNewsTopic (topic : String)
  | getTrendingNews (country : String)
  | getUserPosts (username : String)
  | getMyFollowing (access_token : Option String) (x_user_id : Option String)
  | lookupUserByUsername (access_token : Option String) (username : String)
  | sendDM (access_token : Option String) (recipient_id : String) (message : String)
  | postTweet (access_token : Option String) (text : String)
deriving Repr, DecidableEq

/-- The dispatcher's synchronous behaviour up to its first externally
visible action: either it replies locally with a string (never contacting a
provider), or its next action is a provider call. -/
inductive ToolStep where
  | reply (output : String)
  | callProvider (call : ProviderCall)
deriving Repr, DecidableEq

/-- The `ToolCallArgs` object handed to `executeToolCall` (the union of the
per-tool argument interfaces; `country` is optional in the source). -/
structure ToolCallArgs where
  topic : String
  country : Option String
  username : String
  recipient_username : String
  message : String
  text : String
deriving Repr, DecidableEq

def defaultToolArgs : ToolCallArgs :=
  { topic := "", country := none, username := "", recipient_username := "",
    message := "", text := "" }

structure SendDMArgs where
  recipient_username : String
  message : String
deriving Repr, DecidableEq

structure PostTweetArgs where
  text : String
deriving Repr, DecidableEq

/-- `trendArgs.country || 'US'`: JavaScript or-default, where the empty
string is falsy. -/
def jsStringOr : Option String → String → String
  | none, d => d
  | some s, d => if s = "" then d else s

/-- `JSON.stringify` output of the not-authenticated reply shared by
`handleSendDM` and `handlePostTweet`. -/
def authFailureMessage : String :=
  "\x7b\"success\":false,\"message\":\"You need to connect your X account first. Visit our website to log in with X, then call back.\"\x7d"

/-- `JSON.stringify` output of the not-authenticated reply of
`handleGetMyFollowing` (it additionally carries an empty `users` list). -/
def authFailureWithUsers : String :=
  "\x7b\"success\":false,\"message\":\"You need to connect your X account first. Visit our website to log in with X, then call back.\",\"users\":[]\x7d"

/-- `JSON.stringify` output of the over-length reply of `handlePostTweet`. -/
def oversizeTweetMessage (n : Nat) : String :=
  "\x7b\"success\":false,\"message\":\"Your tweet is " ++ toString n ++
    " characters, but the maximum is 280. Please shorten it.\"\x7d"

/-- `tools.ts handleGetMyFollowing`: the guard
`!userContext?.auth.authenticated || !userContext.auth.access_token` is the
negation of the condition of the `if` below. -/
def handleGetMyFollowing : Option UserContext → ToolStep
  | none => ToolStep.reply authFailureWithUsers
  | some c =>
    if c.auth.authenticated && isTruthy c.auth.access_token then
      ToolStep.callProvider (ProviderCall.getMyFollowing c.auth.access_token c.auth.x_user_id)
    else ToolStep.reply authFailureWithUsers

/-- `tools.ts handleSendDM`, modelled up to its first provider interaction
(the recipient lookup); the branches after the lookup depend on the
provider's response and are not needed by the claims. -/
def handleSendDM : Option UserContext → SendDMArgs → ToolStep
  | none, _ => ToolStep.reply authFailureMessage
  | some c, args =>
    if c.auth.authenticated && isTruthy c.auth.access_token then
      ToolStep.callProvider
        (ProviderCall.lookupUserByUsername c.auth.access_token args.recipient_username)
    else ToolStep.reply authFailureMessage

/-- `tools.ts handlePostTweet`: auth guard, then the 280-character length
check, then the provider call. -/
def handlePostTweet : Option UserContext → PostTweetArgs → ToolStep
  | none, _ => ToolStep.reply authFailureMessage
  | some c, args =>
    if c.auth.authenticated && isTruthy c.auth.access_token then
      if args.text.length > 280 then
        ToolStep.reply (oversizeTweetMessage args.text.length)
      else
        ToolStep.callProvider (ProviderCall.postTweet c.auth.access_token args.text)
    else ToolStep.reply authFailureMessage

/-- `tools.ts executeToolCall`: the `switch (toolName)` dispatch.  The
`contexts` argument is the `activeCallContexts` map read by
`getCallContext(callId)`. -/
def executeToolCall (contexts : String → Option UserContext) (callId : String)
    (toolName : String) (args : ToolCallArgs) : ToolStep :=
  let userContext := contexts callId
  if toolName = "search_news_topic" then
    ToolStep.callProvider (ProviderCall.searchNewsTopic args.topic)
  else if toolName = "get_trending_news" then
    ToolStep.callProvider (ProviderCall.getTrendingNews (jsStringOr args.country "US"))
  else if toolName = "get_user_posts" then
    ToolStep.callProvider (ProviderCall.getUserPosts args.username)
  else if toolName = "get_my_following" then
    handleGetMyFollowing userContext
  else if toolName = "send_dm" then
    handleSendDM userContext { recipient_username := args.recipient_username, message := args.message }
  else if toolName = "post_tweet" then
    handlePostTweet userContext { text := args.text }
  else
    ToolStep.reply ("\x7b\"error\":\"Unknown tool: " ++ toolName ++ "\"\x7d")

/-- The `try`/`catch` of `executeToolCall` around the awaited provider
call: a provider failure is converted to the structured failure payload
`JSON.stringify(\x7bsuccess: false, error: ...\x7d)` instead of being
propagated. -/
def runDispatch (stepr : ToolStep) (provider : ProviderCall → Except String String) : String :=
  match stepr with
  | ToolStep.reply s => s
  | ToolStep.callProvider c =>
    match provider c with
    | Except.ok r => r
    | Except.error e =>
      "\x7b\"success\":false,\"error\":\"Tool execution failed: " ++ e ++ "\"\x7d"

/-! ## index.ts: the Call Session Bridge

Per-call closure state of the `/media-stream/:callId` handler and the event
handlers attached to the two sockets.  `conversationId` is this call's entry
of `callConversationIds` and `botTranscriptBuffer` this call's entry of
`botTranscriptBuffers`, both read and written only by this call's handlers.
The WebSocket readiness check `xaiWs.readyState !== 1` in the media handler
is elided: the model describes the steady state with both sockets open. -/

/-- The mutable `functionCallState` object tracking the pending tool call. -/
structure FunctionCallState where
  callId : Option String
  name : Option String
  arguments : String
deriving Repr, DecidableEq

/-- The per-call closure variables of the media-stream handler. -/
structure BridgeState where
  streamSid : Option String
  twilioReady : Bool
  sessionReady : Bool
  greetingSent : Bool
  pollActive : Bool
  functionCallState : FunctionCallState
  audioPacketCount : Nat
  botTranscriptBuffer : Option String
  conversationId : Option String
deriving Repr, DecidableEq

deriving instance DecidableEq for Except

/-- Messages arriving on the x.ai socket, one constructor per `type` the
handler distinguishes.  `responseDone` carries the eventual outcome of the
`executeToolCall` promise the handler chains on: `Except.ok` for the
`.then` branch, `Except.error` for the `.catch` branch. -/
inductive XaiMessage where
  | outputAudioDelta (delta : String)
  | outputAudioTranscriptDelta (delta : String)
  | responseCreated
  | functionCallArgumentsDelta (delta : String)
  | functionCallArgumentsDone (call_id : String) (name : String)
  | responseDone (dispatchOutcome : Except String String)
  | sessionUpdated
  | conversationCreated
  | speechStarted
  | speechStopped
  | bufferCommitted
  | inputTranscriptionCompleted (transcript : String)
  | ping
  | errorEvent
  | outputAudioTranscriptDone
  | unknownType (t : String)
deriving Repr, DecidableEq

/-- Events processed by the per-call handlers: the Twilio socket's `start`
and `media` events, an x.ai socket message, one tick of the 50 ms greeting
poll started by `session.updated`, and the 3-second timeout that clears
that poll. -/
inductive Event where
  | twilioStart (streamSid : String)
  | twilioMedia (track : String) (payload : String)
  | xai (m : XaiMessage)
  | pollTick
  | pollTimeout
deriving Repr, DecidableEq

/-- Externally visible actions a handler performs, in program order. -/
inductive Output where
  | twilioMedia (payload : String) (streamSid : String)
  | twilioClear (streamSid : Option String)
  | xaiAppendAudio (audio : String)
  | xaiGreetingItem
  | xaiResponseCreate
  | xaiSessionUpdate
  | dispatchTool (call_id : String) (name : String) (args : Json)
  | xaiFunctionCallOutput (call_id : Option String) (output : String)
  | persistUserTranscript (text : String)
  | persistBotTranscript (text : String)
  | logNoStreamSid
  | logWaitingForSession

/-- `trySendGreeting`: guarded by `greetingSent || !sessionReady ||
!tw.streamSid`; on success it first sets `greetingSent`, then sends the
scripted `conversation.item.create` (prompt text elided) and
`response.create`. -/
def trySendGreeting (s : BridgeState) : BridgeState × List Output :=
  if s.greetingSent || !s.sessionReady || !(isTruthy s.streamSid) then (s, [])
  else ({ s with greetingSent := true }, [Output.xaiGreetingItem, Output.xaiResponseCreate])

/-- The output string the `response.done` handler sends as the
`function_call_output`: the resolved tool result in the `.then` branch, the
structured `JSON.stringify(\x7berror: ...\x7d)` payload in the `.catch`
branch. -/
def dispatchResultOutput : Except String String → String
  | Except.ok r => r
  | Except.error e => "\x7b\"error\":\"Tool failed: " ++ e ++ "\"\x7d"

/-- `JSON.parse(functionCallState.arguments || '\x7b\x7d')` with the parse
failure caught and replaced by the empty argument object. -/
def parseFunctionArgs (raw : String) : Json :=
  match jsonParse (if raw = "" then "\x7b\x7d" else raw) with
  | some j => j
  | none => Json.obj []

/-- The `xaiWs.on('message')` handler body, one case per message type in
source order.  Pure logging branches produce no modeled output. -/
def handleXai (s : BridgeState) (m : XaiMessage) : BridgeState × List Output :=
  match m with
  | XaiMessage.outputAudioDelta delta =>
    -- guarded by `message.delta` truthiness, then by `tw.streamSid`
    if delta != "" then
      match s.streamSid with
      | none => (s, [Output.logNoStreamSid])
      | some sid =>
        if sid = "" then (s, [Output.logNoStreamSid])
        else (s, [Output.twilioMedia delta sid])
    else (s, [])
  | XaiMessage.outputAudioTranscriptDelta delta =>
    ({ s with botTranscriptBuffer := some ((s.botTranscriptBuffer.getD "") ++ delta) }, [])
  | XaiMessage.responseCreated => (s, [])
  | XaiMessage.functionCallArgumentsDelta delta =>
    ({ s with functionCallState :=
        { s.functionCallState with arguments := s.functionCallState.arguments ++ delta } }, [])
  | XaiMessage.functionCallArgumentsDone cid nm =>
    ({ s with functionCallState :=
        { s.functionCallState with callId := some cid, name := some nm } }, [])
  | XaiMessage.responseDone outcome =>
    -- `if (functionCallState.name && functionCallState.callId)`
    if isTruthy s.functionCallState.name && isTruthy s.functionCallState.callId then
      let cid := s.functionCallState.callId.getD ""
      let nm := s.functionCallState.name.getD ""
      ({ s with functionCallState := { callId := none, name := none, arguments := "" } },
       [Output.dispatchTool cid nm (parseFunctionArgs s.functionCallState.arguments),
        Output.xaiFunctionCallOutput (some cid) (dispatchResultOutput outcome),
        Output.xaiResponseCreate])
    else (s, [])
  | XaiMessage.sessionUpdated =>
    let s1 := { s with sessionReady := true }
    let r := trySendGreeting s1
    -- `if (!greetingSent)` start the 50 ms poll (cleared after 3 s)
    if r.1.greetingSent then r else ({ r.1 with pollActive := true }, r.2)
  | XaiMessage.conversationCreated => (s, [Output.xaiSessionUpdate])
  | XaiMessage.speechStarted => (s, [Output.twilioClear s.streamSid])
  | XaiMessage.speechStopped => (s, [])
  | XaiMessage.bufferCommitted => (s, [])
  | XaiMessage.inputTranscriptionCompleted t =>
    match s.conversationId with
    | some _ => if t.trim != "" then (s, [Output.persistUserTranscript t]) else (s, [])
    | none => (s, [])
  | XaiMessage.ping => (s, [])
  | XaiMessage.errorEvent => (s, [])
  | XaiMessage.outputAudioTranscriptDone =>
    let full := s.botTranscriptBuffer.getD ""
    let outs := match s.conversationId with
      | some _ => if full.trim != "" then [Output.persistBotTranscript full] else []
      | none => []
    ({ s with botTranscriptBuffer := none }, outs)
  | XaiMessage.unknownType _ => (s, [])

/-- One step of the per-call event processing. -/
def step (s : BridgeState) (e : Event) : BridgeState × List Output :=
  match e with
  | Event.twilioStart sid =>
    ({ s with streamSid := some sid, twilioReady := true }, [])
  | Event.twilioMedia track payload =>
    let s1 := { s with audioPacketCount := s.audioPacketCount + 1 }
    if track = "inbound" then
      if !s1.sessionReady then
        (s1, if s1.audioPacketCount = 1 then [Output.logWaitingForSession] else [])
      else (s1, [Output.xaiAppendAudio payload])
    else (s1, [])
  | Event.xai m => handleXai s m
  | Event.pollTick =>
    -- the interval body: `if (tw.streamSid) \x7b clearInterval; trySendGreeting() \x7d`
    if s.pollActive && isTruthy s.streamSid then
      trySendGreeting { s with pollActive := false }
    else (s, [])
  | Event.pollTimeout => ({ s with pollActive := false }, [])

/-- Process an event trace in arrival order, accumulating outputs. -/
def run (s : BridgeState) : List Event → BridgeState × List Output
  | [] => (s, [])
  | e :: es =>
    let r1 := step s e
    let r2 := run r1.1 es
    (r2.1, r1.2 ++ r2.2)

/-- The closure state right after the handler set-up completes (before any
of the modeled events has been processed). -/
def initState (conversationId : Option String) : BridgeState :=
  { streamSid := none, twilioReady := false, sessionReady := false,
    greetingSent := false, pollActive := false,
    functionCallState := { callId := none, name := none, arguments := "" },
    audioPacketCount := 0, botTranscriptBuffer := none,
    conversationId := conversationId }

/-! ## index.ts: process-wide maps and the close/error handlers -/

/-- The process-wide per-call maps of `index.ts` and `user-auth.ts`. -/
structure GlobalMaps where
  callPhoneNumbers : String → Option String
  callConversationIds : String → Option String
  botTranscriptBuffers : String → Option String
  activeCallContexts : String → Option UserContext

/-- Actions a close/error handler may perform besides logging. -/
inductive CloseAction where
  | closeXaiSocket
  | closeTwilioSocket
  | endConversationCall (conversationId : String)
deriving Repr, DecidableEq

/-- `Map.delete` on a call-id-keyed map. -/
def eraseKey {α : Type} (m : String → Option α) (k : String) : String → Option α :=
  fun k2 => if k2 = k then none else m k2

/-- The `ws.on("close")` handler (Twilio socket closed): close the x.ai
socket, end the conversation when one was created, then delete this call's
entries from all four maps. -/
def onTwilioClose (callId : String) (g : GlobalMaps) : GlobalMaps × List CloseAction :=
  let endActs := match g.callConversationIds callId with
    | some cid => [CloseAction.endConversationCall cid]
    | none => []
  ({ callPhoneNumbers := eraseKey g.callPhoneNumbers callId,
     callConversationIds := eraseKey g.callConversationIds callId,
     botTranscriptBuffers := eraseKey g.botTranscriptBuffers callId,
     activeCallContexts := eraseKey g.activeCallContexts callId },
   CloseAction.closeXaiSocket :: endActs)

/-- The `xaiWs.on('close')` handler: it only logs. -/
def onXaiClose (_callId : String) (g : GlobalMaps) : GlobalMaps × List CloseAction :=
  (g, [])

/-- The `xaiWs.on('error')` handler: it only logs. -/
def onXaiError (_callId : String) (g : GlobalMaps) : GlobalMaps × List CloseAction :=
  (g, [])

/-- The `ws.on("error")` handler (Twilio socket error): it only logs. -/
def onTwilioError (_callId : String) (g : GlobalMaps) : GlobalMaps × List CloseAction :=
  (g, [])

/-! ## Trace machinery and counting helpers -/

set_option maxRecDepth 8000

def isGreetingItem : Output → Bool
  | Output.xaiGreetingItem => true
  | _ => false

def isWaitingLog : Output → Bool
  | Output.logWaitingForSession => true
  | _ => false

/-- Number of scripted-opening-turn sends in an output list. -/
def greetingCount (outs : List Output) : Nat := (outs.filter isGreetingItem).length

/-- Number of waiting-for-session drop logs in an output list. -/
def waitingLogCount (outs : List Output) : Nat := (outs.filter isWaitingLog).length

def boolCount (b : Bool) : Nat := if b then 1 else 0

theorem run_append (s : BridgeState) (xs ys : List Event) :
    run s (xs ++ ys)
      = ((run (run s xs).1 ys).1, (run s xs).2 ++ (run (run s xs).1 ys).2) := by
  induction xs generalizing s with
  | nil => simp [run]
  | cons e xs ih => simp [run, ih]

theorem step_greeting (s : BridgeState) (e : Event) :
    greetingCount (step s e).2 + boolCount s.greetingSent
      = boolCount (step s e).1.greetingSent := by
  cases e with
  | twilioStart sid => simp [step, greetingCount]
  | twilioMedia track payload =>
    simp only [step]
    split <;> (try split) <;> (try split) <;> simp [greetingCount, isWaitingLog, isGreetingItem]
  | pollTick =>
    simp only [step]
    split
    · unfold trySendGreeting
      split
      · simp_all [greetingCount]
      · rename_i hguard
        simp only [Bool.or_eq_true, Bool.not_eq_true', not_or] at hguard
        simp [greetingCount, isGreetingItem, hguard.1, boolCount]
    · simp [greetingCount]
  | pollTimeout => simp [step, greetingCount]
  | xai m =>
    cases m with
    | outputAudioDelta delta =>
      simp only [step, handleXai]
      split
      · split <;> (try split) <;> simp [greetingCount, isGreetingItem]
      · simp [greetingCount]
    | sessionUpdated =>
      simp only [step, handleXai]
      unfold trySendGreeting
      split
      · rename_i hguard
        split <;> simp_all [greetingCount]
      · rename_i hguard
        simp only [Bool.or_eq_true, Bool.not_eq_true', not_or] at hguard
        split <;> simp [greetingCount, isGreetingItem, hguard.1, boolCount]
    | responseDone outcome =>
      simp only [step, handleXai]
      split <;> simp [greetingCount, isGreetingItem]
    | inputTranscriptionCompleted t =>
      simp only [step, handleXai]
      split <;> (try split) <;> simp [greetingCount, isGreetingItem]
    | outputAudioTranscriptDone =>
      simp only [step, handleXai]
      split <;> (try split) <;> simp [greetingCount, isGreetingItem]
    | _ => simp [step, handleXai, greetingCount, isGreetingItem]

theorem run_greeting (s : BridgeState) (tr : List Event) :
    greetingCount (run s tr).2 + boolCount s.greetingSent
      = boolCount (run s tr).1.greetingSent := by
  induction tr generalizing s with
  | nil => simp [run, greetingCount]
  | cons e tr ih =>
    have h1 := step_greeting s e
    have h2 := ih (step s e).1
    simp only [run, greetingCount, List.filter_append, List.length_append] at *
    omega

/-- Budget for the waiting-for-session drop log: it can still fire only
while `audioPacketCount` is zero. -/
def logBudget (s : BridgeState) : Nat := if s.audioPacketCount = 0 then 1 else 0

theorem step_waitingLog (s : BridgeState) (e : Event) :
    waitingLogCount (step s e).2 + logBudget (step s e).1 ≤ logBudget s := by
  cases e with
  | twilioStart sid => simp [step, waitingLogCount, logBudget]
  | twilioMedia track payload =>
    simp only [step]
    split <;> (try split) <;> (try split) <;>
      simp_all [waitingLogCount, isWaitingLog, logBudget]
  | pollTick =>
    simp only [step]
    split
    · unfold trySendGreeting
      split <;> simp [waitingLogCount, isWaitingLog, logBudget]
    · simp [waitingLogCount, logBudget]
  | pollTimeout => simp [step, waitingLogCount, logBudget]
  | xai m =>
    cases m with
    | outputAudioDelta delta =>
      simp only [step, handleXai]
      split
      · split <;> (try split) <;> simp [waitingLogCount, isWaitingLog, logBudget]
      · simp [waitingLogCount, logBudget]
    | sessionUpdated =>
      simp only [step, handleXai]
      unfold trySendGreeting
      split <;> split <;> simp [waitingLogCount, isWaitingLog, logBudget]
    | responseDone outcome =>
      simp only [step, handleXai]
      split <;> simp [waitingLogCount, isWaitingLog, logBudget]
    | inputTranscriptionCompleted t =>
      simp only [step, handleXai]
      split <;> (try split) <;> simp [waitingLogCount, isWaitingLog, logBudget]
    | outputAudioTranscriptDone =>
      simp only [step, handleXai]
      split <;> (try split) <;> simp [waitingLogCount, isWaitingLog, logBudget]
    | _ => simp [step, handleXai, waitingLogCount, isWaitingLog, logBudget]

theorem run_waitingLog (s : BridgeState) (tr : List Event) :
    waitingLogCount (run s tr).2 + logBudget (run s tr).1 ≤ logBudget s := by
  induction tr generalizing s with
  | nil => simp [run, waitingLogCount]
  | cons e tr ih =>
    have h1 := step_waitingLog s e
    have h2 := ih (step s e).1
    simp only [run, waitingLogCount, List.filter_append, List.length_append] at *
    omega

/-- While `streamSid` is unset, no handler sends a media frame to Twilio. -/
theorem step_no_media_without_sid (s : BridgeState) (e : Event)
    (h : s.streamSid = none) (p sid : String) :
    Output.twilioMedia p sid ∉ (step s e).2 := by
  cases e with
  | twilioStart sid2 => simp [step]
  | twilioMedia track payload =>
    simp only [step]
    split <;> (try split) <;> (try split) <;> simp
  | pollTick =>
    simp only [step]
    split
    · unfold trySendGreeting
      split <;> simp
    · simp
  | pollTimeout => simp [step]
  | xai m =>
    cases m with
    | outputAudioDelta delta =>
      simp only [step, handleXai, h]
      split <;> simp
    | sessionUpdated =>
      simp only [step, handleXai]
      unfold trySendGreeting
      split <;> split <;> simp
    | responseDone outcome =>
      simp only [step, handleXai]
      split <;> simp
    | inputTranscriptionCompleted t =>
      simp only [step, handleXai]
      split <;> (try split) <;> simp
    | outputAudioTranscriptDone =>
      simp only [step, handleXai]
      split <;> (try split) <;> simp
    | _ => simp [step, handleXai]

/-! ## Claim theorems -/

/-- Example global state with one live call, used to exercise the
close/error handlers. -/
def gExample : GlobalMaps :=
  { callPhoneNumbers := fun k => if k = "call_a" then some "+15550100" else none,
    callConversationIds := fun k => if k = "call_a" then some "conv_7" else none,
    botTranscriptBuffers := fun k => if k = "call_a" then some "partial text" else none,
    activeCallContexts := fun k =>
      if k = "call_a" then
        some { phoneNumber := "+15550100",
               auth := { authenticated := false, access_token := none, x_user_id := none,
                         x_username := none, x_name := none } }
      else none }

/-- C1 counterexample: the claim says teardown is triggered by either
socket's close/error event, but the x.ai socket's close handler only logs:
after it runs, the `callPhoneNumbers` entry for the call is still present
and no action (in particular no proactive close of the Twilio socket) was
issued. -/
theorem C1_counterexample :
    (onXaiClose "call_a" gExample).1.callPhoneNumbers "call_a" ≠ none
  ∧ (onXaiClose "call_a" gExample).2 = [] := by
  constructor
  · intro h
    simp [onXaiClose, gExample] at h
  · rfl

/-- C1 (amended): per-call resources are released only by the Twilio
socket's close handler, which deletes this call's entries from all four
per-call maps (leaving other calls' entries untouched) and proactively
closes the x.ai socket; the x.ai socket's close and error handlers and the
Twilio socket's error handler only log and release nothing. -/
theorem C1_teardown (callId k : String) (g : GlobalMaps) :
    ((onTwilioClose callId g).1.callPhoneNumbers k
        = if k = callId then none else g.callPhoneNumbers k)
  ∧ ((onTwilioClose callId g).1.callConversationIds k
        = if k = callId then none else g.callConversationIds k)
  ∧ ((onTwilioClose callId g).1.botTranscriptBuffers k
        = if k = callId then none else g.botTranscriptBuffers k)
  ∧ ((onTwilioClose callId g).1.activeCallContexts k
        = if k = callId then none else g.activeCallContexts k)
  ∧ CloseAction.closeXaiSocket ∈ (onTwilioClose callId g).2
  ∧ onXaiClose callId g = (g, [])
  ∧ onXaiError callId g = (g, [])
  ∧ onTwilioError callId g = (g, []) := by
  refine ⟨rfl, rfl, rfl, rfl, ?_, rfl, rfl, rfl⟩
  simp [onTwilioClose]

/-- C2 counterexample: the claim says the greeting is sent exactly once for
every interleaving of the two readiness signals, but when `session.updated`
arrives first and the Twilio `start` event only arrives after the greeting
poll's 3-second timeout has cleared the poll, the greeting is never sent:
this trace contains both readiness signals yet produces zero greeting
sends. -/
theorem C2_counterexample :
    (Event.xai XaiMessage.sessionUpdated
        ∈ [Event.xai XaiMessage.sessionUpdated, Event.pollTimeout, Event.twilioStart "MZ1"]
      ∧ Event.twilioStart "MZ1"
        ∈ [Event.xai XaiMessage.sessionUpdated, Event.pollTimeout, Event.twilioStart "MZ1"])
  ∧ greetingCount (run (initState none)
      [Event.xai XaiMessage.sessionUpdated, Event.pollTimeout, Event.twilioStart "MZ1"]).2
      = 0 := by
  exact ⟨⟨by simp, by simp⟩, rfl⟩

/-- C2 (amended): the scripted opening turn is sent at most once per call
and `greetingSent` is monotonic (once true it never reverts); it is sent
exactly once when the Twilio stream-start precedes `session.updated`, and
also in the other order provided a greeting-poll tick fires after the
stream-start while the poll is still active — but not unconditionally for
every interleaving (see the counterexample with a timed-out poll). -/
theorem C2_greeting (s : BridgeState) (tr : List Event) (convId : Option String) :
    (greetingCount (run s tr).2 + boolCount s.greetingSent
        = boolCount (run s tr).1.greetingSent)
  ∧ greetingCount (run (initState convId) tr).2 ≤ 1
  ∧ (run { s with greetingSent := true } tr).1.greetingSent = true
  ∧ greetingCount (run (initState none)
      [Event.twilioStart "MZ1", Event.xai XaiMessage.sessionUpdated]).2 = 1
  ∧ greetingCount (run (initState none)
      [Event.xai XaiMessage.sessionUpdated, Event.twilioStart "MZ1", Event.pollTick]).2 = 1 := by
  refine ⟨run_greeting s tr, ?_, ?_, rfl, rfl⟩
  · have h := run_greeting (initState convId) tr
    have hb : boolCount (run (initState convId) tr).1.greetingSent ≤ 1 := by
      unfold boolCount
      split <;> omega
    have h0 : boolCount (initState convId).greetingSent = 0 := rfl
    omega
  · have h := run_greeting { s with greetingSent := true } tr
    have h1 : boolCount ({ s with greetingSent := true } : BridgeState).greetingSent = 1 := rfl
    by_cases hb : (run { s with greetingSent := true } tr).1.greetingSent = true
    · exact hb
    · exfalso
      have h0 : boolCount (run { s with greetingSent := true } tr).1.greetingSent = 0 := by
        simp [boolCount, hb]
      omega

/-- C3: an inbound telephony audio frame that arrives while `sessionReady`
is false is dropped: the handler changes nothing but the packet counter (no
buffering, no queueing), forwards nothing to the AI socket, and emits the
drop log only on the very first media packet — so at most once per call. -/
theorem C3_inbound_gating (s : BridgeState) (payload : String)
    (h : s.sessionReady = false) :
    (step s (Event.twilioMedia "inbound" payload)
      = ({ s with audioPacketCount := s.audioPacketCount + 1 },
         if s.audioPacketCount + 1 = 1 then [Output.logWaitingForSession] else []))
  ∧ (∀ a, Output.xaiAppendAudio a ∉ (step s (Event.twilioMedia "inbound" payload)).2)
  ∧ (∀ tr convId, waitingLogCount (run (initState convId) tr).2 ≤ 1) := by
  refine ⟨?_, ?_, ?_⟩
  · simp [step, h]
  · intro a
    simp only [step, h]
    split <;> (try split) <;> (try split) <;> simp_all
  · intro tr convId
    have hr := run_waitingLog (initState convId) tr
    have h0 : logBudget (initState convId) = 1 := rfl
    omega

/-- C3 witness: at the fresh per-call state the first pre-ready inbound
frame is counted, logged once and not forwarded. -/
theorem C3_inbound_gating_witness :
    (step (initState none) (Event.twilioMedia "inbound" "QUJE")
      = ({ (initState none) with audioPacketCount := 0 + 1 },
         if 0 + 1 = 1 then [Output.logWaitingForSession] else []))
  ∧ Output.xaiAppendAudio "QUJE" ∉ (step (initState none) (Event.twilioMedia "inbound" "QUJE")).2 := by
  have h := C3_inbound_gating (initState none) "QUJE" rfl
  exact ⟨h.1, h.2.1 "QUJE"⟩

/-- C4: a non-empty audio delta from the AI side arriving while
`tw.streamSid` is unset is dropped with a warning log (never silently), no
handler sends a Twilio media frame while `streamSid` is unset, and once
`streamSid` carries a (truthy) stream handle the same delta is relayed to
Twilio addressed by that handle. -/
theorem C4_outbound_gating (s : BridgeState) (delta : String)
    (hd : delta ≠ "") (hsid : s.streamSid = none) :
    (step s (Event.xai (XaiMessage.outputAudioDelta delta)) = (s, [Output.logNoStreamSid]))
  ∧ (∀ e p sid, Output.twilioMedia p sid ∉ (step s e).2)
  ∧ (∀ sid, sid ≠ "" →
      step { s with streamSid := some sid } (Event.xai (XaiMessage.outputAudioDelta delta))
        = ({ s with streamSid := some sid }, [Output.twilioMedia delta sid])) := by
  refine ⟨?_, ?_, ?_⟩
  · simp [step, handleXai, hsid, hd]
  · intro e p sid
    exact step_no_media_without_sid s e hsid p sid
  · intro sid hs
    simp [step, handleXai, hd, hs]

/-- C4 witness: concrete pre-start drop with log, and concrete relay after
the stream handle is set. -/
theorem C4_outbound_gating_witness :
    (step (initState none) (Event.xai (XaiMessage.outputAudioDelta "QUJE"))
      = (initState none, [Output.logNoStreamSid]))
  ∧ Output.twilioMedia "QUJE" "MZ1" ∉
      (step (initState none) (Event.xai (XaiMessage.outputAudioDelta "QUJE"))).2
  ∧ step { (initState none) with streamSid := some "MZ1" }
        (Event.xai (XaiMessage.outputAudioDelta "QUJE"))
      = ({ (initState none) with streamSid := some "MZ1" },
         [Output.twilioMedia "QUJE" "MZ1"]) := by
  have h := C4_outbound_gating (initState none) "QUJE" (by simp) rfl
  exact ⟨h.1, h.2.1 (Event.xai (XaiMessage.outputAudioDelta "QUJE")) "QUJE" "MZ1",
         h.2.2 "MZ1" (by simp)⟩

/-- C5: on `response.done` with a pending tool call the handler always
sends a `function_call_output` for the pending call-reference followed by a
`response.create`, and clears the pending state, whether the dispatch
promise resolves (`Except.ok`, carrying the tool's result — `tools.ts`
itself converts provider failures into a structured success-false payload,
last conjunct) or rejects (`Except.error`, converted to a structured error
payload rather than propagated). -/
theorem C5_tool_roundtrip (s : BridgeState) (cid nm : String)
    (outcome : Except String String)
    (hc : s.functionCallState.callId = some cid) (hn : s.functionCallState.name = some nm)
    (hc0 : cid ≠ "") (hn0 : nm ≠ "") :
    ((step s (Event.xai (XaiMessage.responseDone outcome))).2
      = [Output.dispatchTool cid nm (parseFunctionArgs s.functionCallState.arguments),
         Output.xaiFunctionCallOutput (some cid) (dispatchResultOutput outcome),
         Output.xaiResponseCreate])
  ∧ (step s (Event.xai (XaiMessage.responseDone outcome))).1.functionCallState
      = { callId := none, name := none, arguments := "" }
  ∧ (∀ r, dispatchResultOutput (Except.ok r) = r)
  ∧ (∀ e, dispatchResultOutput (Except.error e)
      = "\x7b\"error\":\"Tool failed: " ++ e ++ "\"\x7d")
  ∧ (∀ provider c e2, provider c = Except.error e2 →
      runDispatch (ToolStep.callProvider c) provider
        = "\x7b\"success\":false,\"error\":\"Tool execution failed: " ++ e2 ++ "\"\x7d") := by
  refine ⟨?_, ?_, fun r => rfl, fun e => rfl, ?_⟩
  · simp [step, handleXai, hc, hn, isTruthy, hc0, hn0]
  · simp [step, handleXai, hc, hn, isTruthy, hc0, hn0]
  · intro provider c e2 hp
    simp [runDispatch, hp]

/-- C5 witness: a concrete pending tool call settled with a rejected
dispatch still yields a function output plus `response.create` and clears
the state. -/
theorem C5_tool_roundtrip_witness :
    ((step { (initState none) with functionCallState :=
          { callId := some "call_9", name := some "get_trending_news", arguments := "" } }
        (Event.xai (XaiMessage.responseDone (Except.error "boom")))).2
      = [Output.dispatchTool "call_9" "get_trending_news" (parseFunctionArgs ""),
         Output.xaiFunctionCallOutput (some "call_9")
           (dispatchResultOutput (Except.error "boom")),
         Output.xaiResponseCreate])
  ∧ (step { (initState none) with functionCallState :=
          { callId := some "call_9", name := some "get_trending_news", arguments := "" } }
        (Event.xai (XaiMessage.responseDone (Except.error "boom")))).1.functionCallState
      = { callId := none, name := none, arguments := "" } := by
  have h := C5_tool_roundtrip
    { (initState none) with functionCallState :=
        { callId := some "call_9", name := some "get_trending_news", arguments := "" } }
    "call_9" "get_trending_news" (Except.error "boom") rfl rfl (by simp) (by simp)
  exact ⟨h.1, h.2.1⟩

theorem fragments_accumulate (s : BridgeState) (frags : List String) :
    (run s (frags.map (fun f => Event.xai (XaiMessage.functionCallArgumentsDelta f)))).1.functionCallState.arguments
      = frags.foldl (fun acc f => acc ++ f) s.functionCallState.arguments := by
  induction frags generalizing s with
  | nil => simp [run]
  | cons f fs ih =>
    simp only [List.map_cons, run, step, handleXai, List.foldl_cons]
    exact ih _

/-- C6: argument fragments are concatenated in arrival order; the fragments
"\x7b\"a\":1" then "\x7d" concatenate to a string parsing to the object
with field a = 1; a malformed concatenation (missing closing brace) fails
to parse and yields the empty argument set; and the turn-end dispatch still
proceeds with that empty argument set instead of crashing. -/
theorem C6_fragments (s : BridgeState) (frags : List String) :
    ((run s (frags.map (fun f => Event.xai (XaiMessage.functionCallArgumentsDelta f)))).1.functionCallState.arguments
      = frags.foldl (fun acc f => acc ++ f) s.functionCallState.arguments)
  ∧ ("\x7b\"a\":1" ++ "\x7d" = "\x7b\"a\":1\x7d")
  ∧ parseFunctionArgs ("\x7b\"a\":1" ++ "\x7d") = Json.obj [("a", Json.num 1)]
  ∧ jsonParse "\x7b\"a\":1" = none
  ∧ parseFunctionArgs "\x7b\"a\":1" = Json.obj []
  ∧ ((step { (initState none) with functionCallState :=
        { callId := some "call_1", name := some "post_tweet", arguments := "\x7b\"a\":1" } }
      (Event.xai (XaiMessage.responseDone (Except.ok "result")))).2
      = [Output.dispatchTool "call_1" "post_tweet" (Json.obj []),
         Output.xaiFunctionCallOutput (some "call_1") "result",
         Output.xaiResponseCreate]) := by
  exact ⟨fragments_accumulate s frags, rfl, rfl, rfl, rfl, rfl⟩

/-- The JavaScript-falsy guard of the repeated authorization check
`!userContext?.auth.authenticated || !userContext.auth.access_token`. -/
def authGuardFails : Option UserContext → Bool
  | none => true
  | some c => !(c.auth.authenticated && isTruthy c.auth.access_token)

/-- The authorization-requiring subset of the tool vocabulary. -/
def authRequiredTools : List String := ["get_my_following", "send_dm", "post_tweet"]

/-- C7: dispatching an authorization-requiring tool with an absent or
unauthenticated caller identity replies locally with the structured
account-linking payload (whose `success` field parses to `false` and whose
`message` is the out-of-band linking instruction) and never produces a
provider call. -/
theorem C7_auth_required (contexts : String → Option UserContext) (callId : String)
    (args : ToolCallArgs) (name : String)
    (hname : name ∈ authRequiredTools)
    (hauth : authGuardFails (contexts callId) = true) :
    (executeToolCall contexts callId name args
      = ToolStep.reply
          (if name = "get_my_following" then authFailureWithUsers else authFailureMessage))
  ∧ (∀ c, executeToolCall contexts callId name args ≠ ToolStep.callProvider c)
  ∧ ((jsonParse authFailureMessage).bind (fun j => jlookup j "success")
      = some (Json.bool false))
  ∧ ((jsonParse authFailureWithUsers).bind (fun j => jlookup j "success")
      = some (Json.bool false))
  ∧ ((jsonParse authFailureMessage).bind (fun j => jlookup j "message")
      = some (Json.str "You need to connect your X account first. Visit our website to log in with X, then call back.")) := by
  have hreply : executeToolCall contexts callId name args
      = ToolStep.reply
          (if name = "get_my_following" then authFailureWithUsers else authFailureMessage) := by
    simp only [authRequiredTools, List.mem_cons, List.not_mem_nil, or_false] at hname
    rcases hname with h | h | h <;> subst h <;>
      cases hctx : contexts callId with
      | none => simp [executeToolCall, handleGetMyFollowing, handleSendDM, handlePostTweet, hctx]
      | some c =>
        rw [hctx] at hauth
        simp only [authGuardFails, Bool.not_eq_true', Bool.and_eq_false_iff] at hauth
        rcases hauth with hf | hf <;>
          simp [executeToolCall, handleGetMyFollowing, handleSendDM, handlePostTweet, hctx, hf]
  refine ⟨hreply, ?_, rfl, rfl, rfl⟩
  intro c hcontra
  rw [hreply] at hcontra
  exact ToolStep.noConfusion hcontra

/-- C7 witness: send_dm with no call context replies with the linking
payload and is not a provider call. -/
theorem C7_auth_required_witness :
    (executeToolCall (fun _ => none) "call_w" "send_dm" defaultToolArgs
      = ToolStep.reply
          (if ("send_dm" : String) = "get_my_following" then authFailureWithUsers else authFailureMessage))
  ∧ executeToolCall (fun _ => none) "call_w" "send_dm" defaultToolArgs
      ≠ ToolStep.callProvider (ProviderCall.lookupUserByUsername none "") := by
  have h := C7_auth_required (fun _ => none) "call_w" defaultToolArgs "send_dm"
    (by simp [authRequiredTools]) rfl
  exact ⟨h.1, h.2.1 (ProviderCall.lookupUserByUsername none "")⟩

/-- The full tool vocabulary recognized by the dispatcher's switch. -/
def recognizedTools : List String :=
  ["search_news_topic", "get_trending_news", "get_user_posts",
   "get_my_following", "send_dm", "post_tweet"]

/-- C8 counterexample: the claim says an unknown tool name yields
`success:false` with error "unknown tool"; the code instead replies with
the payload whose only field is `error` = "Unknown tool: <name>": at the
concrete name "frobnicate" the parsed payload has no `success` field at
all and its `error` field is not the string "unknown tool". -/
theorem C8_counterexample :
    (executeToolCall (fun _ => none) "call_a" "frobnicate" defaultToolArgs
      = ToolStep.reply "\x7b\"error\":\"Unknown tool: frobnicate\"\x7d")
  ∧ (jsonParse "\x7b\"error\":\"Unknown tool: frobnicate\"\x7d"
      = some (Json.obj [("error", Json.str "Unknown tool: frobnicate")]))
  ∧ jlookup (Json.obj [("error", Json.str "Unknown tool: frobnicate")]) "success" = none
  ∧ jlookup (Json.obj [("error", Json.str "Unknown tool: frobnicate")]) "error"
      ≠ some (Json.str "unknown tool") := by
  refine ⟨rfl, rfl, rfl, ?_⟩
  intro hcontra
  have h2 : Json.str "Unknown tool: frobnicate" = Json.str "unknown tool" :=
    Option.some.inj hcontra
  have h3 : ("Unknown tool: frobnicate" : String) = "unknown tool" := by
    injection h2
  exact absurd h3 (by decide)

/-- C8 (amended): dispatching a tool name outside the recognized set
returns the structured local reply with payload
`\x7b"error":"Unknown tool: <name>"\x7d` — not an exception and not a
provider call — rather than the claimed
`\x7bsuccess:false, error:"unknown tool"\x7d` shape. -/
theorem C8_unknown_tool (contexts : String → Option UserContext)
    (callId name : String) (args : ToolCallArgs)
    (h : name ∉ recognizedTools) :
    executeToolCall contexts callId name args
      = ToolStep.reply ("\x7b\"error\":\"Unknown tool: " ++ name ++ "\"\x7d") := by
  simp only [recognizedTools, List.mem_cons, List.not_mem_nil, or_false, not_or] at h
  obtain ⟨h1, h2, h3, h4, h5, h6⟩ := h
  simp [executeToolCall, h1, h2, h3, h4, h5, h6]

/-- C8 witness: concrete unknown name. -/
theorem C8_unknown_tool_witness :
    executeToolCall (fun _ => none) "call_w" "mystery_tool" defaultToolArgs
      = ToolStep.reply ("\x7b\"error\":\"Unknown tool: " ++ "mystery_tool" ++ "\"\x7d") :=
  C8_unknown_tool (fun _ => none) "call_w" "mystery_tool" defaultToolArgs (by decide)

/-- C9: a barge-in signal (`input_audio_buffer.speech_started`) produces
the Twilio buffer-clear command, addressed with the current stream handle,
at exactly its position in the trace: every output caused by events queued
after it (in particular any further relayed audio frame) appears strictly
after the clear command, even when the audio frames are part of the same
batch of queued events. -/
theorem C9_barge_in (s : BridgeState) (pre post : List Event) :
    (run s (pre ++ Event.xai XaiMessage.speechStarted :: post)).2
      = (run s pre).2
        ++ Output.twilioClear (run s pre).1.streamSid
        :: (run (run s pre).1 post).2 := by
  rw [run_append]
  simp [run, step, handleXai]

/-- C10: with an authenticated caller (truthy access token), `post_tweet`
with text longer than 280 characters replies locally with the structured
over-length payload — whose `success` field is false and whose message
states the actual character count and the 280 maximum — without producing a
provider call, and with text of at most 280 characters the provider call is
attempted with the caller's token and the text. -/
theorem C10_tweet_length (c : UserContext) (args : PostTweetArgs) (tok : String)
    (hauth : c.auth.authenticated = true) (htok : c.auth.access_token = some tok)
    (htok0 : tok ≠ "") :
    (args.text.length > 280 →
      handlePostTweet (some c) args = ToolStep.reply (oversizeTweetMessage args.text.length))
  ∧ (args.text.length ≤ 280 →
      handlePostTweet (some c) args
        = ToolStep.callProvider (ProviderCall.postTweet c.auth.access_token args.text))
  ∧ (∀ n, oversizeTweetMessage n
      = "\x7b\"success\":false,\"message\":\"Your tweet is " ++ toString n ++
        " characters, but the maximum is 280. Please shorten it.\"\x7d")
  ∧ (∀ n s2, ToolStep.reply s2 ≠ ToolStep.callProvider (ProviderCall.postTweet (some tok) n)) := by
  refine ⟨?_, ?_, fun n => rfl, ?_⟩
  · intro hlong
    simp [handlePostTweet, hauth, htok, isTruthy, htok0, hlong]
  · intro hshort
    have hnot : ¬ (280 < args.text.length) := by omega
    simp [handlePostTweet, hauth, htok, isTruthy, htok0, hnot]
  · intro n s2 hcontra
    exact ToolStep.noConfusion hcontra

/-- An authenticated caller used to exercise the dispatcher. -/
def authedUser : UserContext :=
  { phoneNumber := "+15550199",
    auth := { authenticated := true, access_token := some "tok_w", x_user_id := some "42",
              x_username := some "alice_x", x_name := some "Alice" } }

/-- C10 witness: a 281-character tweet is rejected locally and a short
tweet reaches the provider call. -/
theorem C10_tweet_length_witness :
    handlePostTweet (some authedUser) { text := String.mk (List.replicate 281 'a') }
      = ToolStep.reply (oversizeTweetMessage (String.mk (List.replicate 281 'a')).length)
  ∧ handlePostTweet (some authedUser) { text := "hello" }
      = ToolStep.callProvider (ProviderCall.postTweet authedUser.auth.access_token "hello") := by
  constructor
  · exact (C10_tweet_length authedUser { text := String.mk (List.replicate 281 'a') }
      "tok_w" rfl rfl (by decide)).1 (by decide)
  · exact (C10_tweet_length authedUser { text := "hello" }
      "tok_w" rfl rfl (by decide)).2.1 (by decide)
